import Mathlib

/-!
Shallow embedding of `adaptnlp/translation.py`.

The module wraps an external pretrained sequence-to-sequence library:
the tokenizer and model are modelled as records of abstract functions,
and `predict` is embedded together with an explicit trace (`BatchStep`)
recording, for every iteration of its batch loop, the collated batch,
the `inputs` dictionary it builds, and the exact call it makes to the
model's `generate`.
-/

set_option linter.unusedVariables false
set_option maxRecDepth 8192

/-- Device of a torch tensor or model: `torch.device("cuda")` or `torch.device("cpu")`. -/
inductive Device where
  | cuda
  | cpu
deriving DecidableEq

/-- Result of `torch.device("cuda" if torch.cuda.is_available() else "cpu")`. -/
def torchDevice (cuda_available : Bool) : Device :=
  if cuda_available then Device.cuda else Device.cpu

/-- Abstract pretrained tokenizer.  `encode` maps a text to its token ids
(with special tokens added, as `batch_encode_plus` is called with
`add_special_tokens=True`); `padId` is the padding token id; `decode`
takes the ids plus the `skip_special_tokens` and
`clean_up_tokenization_spaces` flags. -/
structure Tokenizer where
  encode : String → List Nat
  padId : Nat
  decode : List Nat → Bool → Bool → String

/-- Generation parameters that `predict` forwards to the model's `generate`:
`num_beams`, `min_length`, `max_length`, `early_stopping`, and the extra
keyword arguments `**kwargs`. -/
structure GenArgs where
  num_beams : Nat
  min_length : Nat
  max_length : Nat
  early_stopping : Bool
  kwargs : List (String × Int)
deriving DecidableEq

/-- Batched 2-dimensional tensor: a list of rows together with the device it lives on. -/
structure BTensor where
  data : List (List Nat)
  device : Device
deriving DecidableEq

/-- Tensor.to(device): returns the tensor placed on `d`. -/
def BTensor.to (t : BTensor) (d : Device) : BTensor :=
  { t with device := d }

/-- Default tensor used for out-of-range indexing defaults. -/
def defaultBT : BTensor :=
  { data := [], device := Device.cpu }

/-- One call to the model's `generate`: the positional tensor arguments
actually passed, and the generation parameters. -/
structure GenCall where
  tensors : List BTensor
  args : GenArgs
deriving DecidableEq

/-- Abstract pretrained model with a language-modeling head.  `isT5` models
`isinstance(model, T5ForConditionalGeneration)`; `params` its parameters;
`training` the train/eval mode flag; `generate` the (abstract) generation
routine, returning one list of output token ids per produced sequence. -/
structure Model where
  isT5 : Bool
  params : List Int
  training : Bool
  generate : GenCall → List (List Nat)

/-- Embeds `model.eval()`: puts the model in evaluation mode. -/
def Model.eval (m : Model) : Model :=
  { m with training := false }

/-- Result of `tokenizer.batch_encode_plus(...)`: the three component tensors. -/
structure Encoding where
  input_ids : List (List Nat)
  attention_mask : List (List Nat)
  token_type_ids : List (List Nat)

/-- One padded/truncated row of `input_ids`: the encoding truncated to
`maxLen` ids and padded with `padId` up to `maxLen` (`pad_to_max_length=True`). -/
def Tokenizer.padRow (tok : Tokenizer) (maxLen : Nat) (e : List Nat) : List Nat :=
  e.take maxLen ++ List.replicate (maxLen - e.length) tok.padId

/-- One row of the attention mask: ones over the kept ids, zeros over padding. -/
def maskRow (maxLen : Nat) (e : List Nat) : List Nat :=
  List.replicate (min e.length maxLen) 1 ++ List.replicate (maxLen - e.length) 0

/-- Embeds `tokenizer.batch_encode_plus(text, return_tensors="pt", max_length=maxLen,
pad_to_max_length=True, add_special_tokens=True)`. -/
def Tokenizer.batchEncodePlus (tok : Tokenizer) (texts : List String) (maxLen : Nat) :
    Encoding :=
  { input_ids := texts.map (fun t => tok.padRow maxLen (tok.encode t))
  , attention_mask := texts.map (fun t => maskRow maxLen (tok.encode t))
  , token_type_ids := texts.map (fun _ => List.replicate maxLen 0) }

/-- Embeds `TensorDataset(a, b)`: row i is the pair of the i-th rows of `a` and `b`. -/
def tensorDataset2 (a b : List (List Nat)) : List (List (List Nat)) :=
  List.zipWith (fun x y => [x, y]) a b

/-- Embeds `TensorDataset(a, b, c)`: row i is the triple of the i-th rows. -/
def tensorDataset3 (a b c : List (List Nat)) : List (List (List Nat)) :=
  List.zipWith (fun x yz => x :: yz) a (tensorDataset2 b c)

/-- The `TransformersTranslator` object: tokenizer, model, the device chosen in
`__init__`, and the device the model was moved to by `self.model.to(self.device)`. -/
structure TransformersTranslator where
  tokenizer : Tokenizer
  model : Model
  device : Device
  modelDevice : Device

/-- Embeds `TransformersTranslator.__init__`: stores tokenizer and model, picks
cuda when available else cpu, and moves the model onto that device. -/
def TransformersTranslator.init (cuda_available : Bool)
    (tokenizer : Tokenizer) (model : Model) : TransformersTranslator :=
  { tokenizer := tokenizer
  , model := model
  , device := torchDevice cuda_available
  , modelDevice := torchDevice cuda_available }

/-- The external `transformers` hub: `AutoTokenizer.from_pretrained` and
`AutoModelWithLMHead.from_pretrained` as abstract loading functions. -/
structure TransformersHub where
  autoTokenizer : String → Tokenizer
  autoModelWithLMHead : String → Model

/-- Embeds the class method `TransformersTranslator.load(model_name_or_path)`. -/
def TransformersTranslator.load (hub : TransformersHub) (cuda_available : Bool)
    (model_name_or_path : String) : TransformersTranslator :=
  let tokenizer := hub.autoTokenizer model_name_or_path
  let model := hub.autoModelWithLMHead model_name_or_path
  TransformersTranslator.init cuda_available tokenizer model

/-- Embeds `TransformersTranslator._tokenize`: batch-encodes with the fixed
maximum length 512 and builds the `TensorDataset`, with `token_type_ids` only
for T5 models (Bart does not use them). -/
def TransformersTranslator.tokenizeDataset (tr : TransformersTranslator)
    (text : List String) : List (List (List Nat)) :=
  let tokenized_text := tr.tokenizer.batchEncodePlus text 512
  if tr.model.isT5 then
    tensorDataset3 tokenized_text.input_ids tokenized_text.attention_mask
      tokenized_text.token_type_ids
  else
    tensorDataset2 tokenized_text.input_ids tokenized_text.attention_mask

/-- Consecutive mini-batches of `m` dataset items, as drawn by
`DataLoader(dataset, batch_size=m)` (which requires `m ≥ 1`; the last batch
may be smaller, since `drop_last` defaults to `False`). -/
def chunkList {α : Type} (m : Nat) : List α → List (List α)
  | [] => []
  | x :: xs => (x :: xs.take (m - 1)) :: chunkList m (xs.drop (m - 1))
termination_by l => l.length
decreasing_by simp; omega

/-- Default collation of a mini-batch of dataset rows: the j-th tensors of the
rows are stacked into one batch tensor; the tuple has as many tensors as each
row has components.  Collated tensors start on the cpu. -/
def collate (rows : List (List (List Nat))) : List BTensor :=
  (List.range (rows.headD []).length).map fun j =>
    { data := rows.map (fun r => r.getD j []), device := Device.cpu }

/-- Dictionary indexing `inputs["input_ids"]` with torch-style association list. -/
def lookupBT (inputs : List (String × BTensor)) (key : String) : BTensor :=
  (inputs.lookup key).getD defaultBT

/-- Trace of one iteration of `predict`'s batch loop: the mini-batch of dataset
rows drawn by the loader, the batch tensors after `t.to(self.device)`, the
`inputs` dictionary, the call made to `generate`, whether gradients were
enabled, and the model's training flag at the call. -/
structure BatchStep where
  rows : List (List (List Nat))
  batch : List BTensor
  inputs : List (String × BTensor)
  call : GenCall
  gradEnabled : Bool
  modelTraining : Bool
deriving DecidableEq

/-- Default batch step used for out-of-range indexing defaults. -/
def dStep : BatchStep :=
  { rows := [], batch := [], inputs := [], call := { tensors := [], args :=
      { num_beams := 0, min_length := 0, max_length := 0, early_stopping := false
      , kwargs := [] } }
  , gradEnabled := true, modelTraining := true }

/-- One iteration of `predict`'s loop body, up to the `generate` call: move every
tensor of the collated batch to the translator's device, build the `inputs`
dictionary (three entries when the batch has three tensors, two otherwise),
and form the `generate` call from `inputs["input_ids"]` and the parameters. -/
def TransformersTranslator.mkStep (tr : TransformersTranslator) (args : GenArgs)
    (model : Model) (rows : List (List (List Nat))) : BatchStep :=
  let batch := (collate rows).map (fun t => t.to tr.device)
  let inputs :=
    if batch.length = 3 then
      [("input_ids", batch.getD 0 defaultBT),
       ("attention_masks", batch.getD 1 defaultBT),
       ("token_type_ids", batch.getD 2 defaultBT)]
    else
      [("input_ids", batch.getD 0 defaultBT),
       ("attention_masks", batch.getD 1 defaultBT)]
  { rows := rows
  , batch := batch
  , inputs := inputs
  , call := { tensors := [lookupBT inputs "input_ids"], args := args }
  , gradEnabled := false
  , modelTraining := model.training }

/-- Runs `predict`'s loop over the mini-batches: each iteration calls
`model.eval()`, builds the batch step, calls `generate`, and decodes every
output with `skip_special_tokens=True, clean_up_tokenization_spaces=False`,
appending the decodings to the running translations. -/
def TransformersTranslator.runBatches (tr : TransformersTranslator) (args : GenArgs)
    (model : Model) :
    List (List (List (List Nat))) → List String × List BatchStep × Model
  | [] => ([], [], model)
  | rows :: rest =>
    let model2 := model.eval
    let step := tr.mkStep args model2 rows
    let outputs := model2.generate step.call
    let r := tr.runBatches args model2 rest
    (outputs.map (fun o => tr.tokenizer.decode o true false) ++ r.1,
     step :: r.2.1, r.2.2)

/-- The `text` argument of `predict` and `translate`: a single string or a list. -/
inductive PyText where
  | str (s : String)
  | list (l : List String)

/-- Embeds the normalisation `if isinstance(text, str): text = [text]`. -/
def PyText.toList : PyText → List String
  | .str s => [s]
  | .list l => l

/-- Full result of a `predict` call: the returned translations, the trace of
batch-loop iterations, and the translator's state after the call. -/
structure PredictOut where
  translations : List String
  steps : List BatchStep
  final : TransformersTranslator

/-- Embeds `TransformersTranslator.predict`, with its observable effects: under
`torch.no_grad()`, normalise `text` to a list, prepend the T5 task text for T5
models, tokenize into a dataset, draw mini-batches, and run the loop. -/
def TransformersTranslator.predictT (tr : TransformersTranslator) (text : PyText)
    (t5pre : String) (mini_batch_size num_beams min_length max_length : Nat)
    (early_stopping : Bool) (kwargs : List (String × Int)) : PredictOut :=
  let text1 := text.toList
  let text2 :=
    if tr.model.isT5 then text1.map (fun t => t5pre ++ ": " ++ t) else text1
  let dataset := tr.tokenizeDataset text2
  let batches := chunkList mini_batch_size dataset
  let args : GenArgs :=
    { num_beams := num_beams, min_length := min_length, max_length := max_length
    , early_stopping := early_stopping, kwargs := kwargs }
  let r := tr.runBatches args tr.model batches
  { translations := r.1, steps := r.2.1, final := { tr with model := r.2.2 } }

/-- The value `predict` returns: the list of decoded translations. -/
def TransformersTranslator.predict (tr : TransformersTranslator) (text : PyText)
    (t5pre : String) (mini_batch_size num_beams min_length max_length : Nat)
    (early_stopping : Bool) (kwargs : List (String × Int)) : List String :=
  (tr.predictT text t5pre mini_batch_size num_beams min_length max_length
    early_stopping kwargs).translations

/-- The `EasyTranslator` object: its `translators` dictionary, keyed by model
name (a `defaultdict(bool)` in the source, whose falsy default marks absence). -/
structure EasyTranslator where
  translators : List (String × TransformersTranslator)

/-- Embeds `EasyTranslator.__init__`: the dictionary starts empty. -/
def EasyTranslator.init : EasyTranslator :=
  { translators := [] }

/-- Full result of a `translate` call: the translations, the façade's state
after the call, whether `TransformersTranslator.load` was invoked, and the
wrapper that served the request. -/
structure TranslateOut where
  translations : List String
  state : EasyTranslator
  loaded : Bool
  used : TransformersTranslator

/-- Embeds `EasyTranslator.translate`: when the dictionary holds no truthy
entry for `model_name_or_path`, load a wrapper and store it under that name;
then delegate to the stored wrapper's `predict` with all parameters. -/
def EasyTranslator.translate (et : EasyTranslator) (hub : TransformersHub)
    (cuda_available : Bool) (text : PyText) (model_name_or_path : String)
    (t5pre : String) (mini_batch_size num_beams min_length max_length : Nat)
    (early_stopping : Bool) (kwargs : List (String × Int)) : TranslateOut :=
  match et.translators.lookup model_name_or_path with
  | some translator =>
    { translations := translator.predict text t5pre mini_batch_size num_beams
        min_length max_length early_stopping kwargs
    , state := et, loaded := false, used := translator }
  | none =>
    let translator := TransformersTranslator.load hub cuda_available
      model_name_or_path
    { translations := translator.predict text t5pre mini_batch_size num_beams
        min_length max_length early_stopping kwargs
    , state := { translators := (model_name_or_path, translator) :: et.translators }
    , loaded := true, used := translator }

/-- Row of the `TensorDataset` built by `_tokenize` for one input text. -/
def datasetRow (tok : Tokenizer) (isT5 : Bool) (t : String) : List (List Nat) :=
  if isT5 then
    [tok.padRow 512 (tok.encode t), maskRow 512 (tok.encode t), List.replicate 512 0]
  else
    [tok.padRow 512 (tok.encode t), maskRow 512 (tok.encode t)]

/-- The list of input texts after `predict`'s normalisation and T5 task-text
prepending: `f"{t5_prefix}: {t}"` for T5 models, the texts unchanged otherwise. -/
def preparedTexts (isT5 : Bool) (t5pre : String) (text : PyText) : List String :=
  if isT5 then text.toList.map (fun t => t5pre ++ ": " ++ t) else text.toList

/-! Small concrete instances used to exercise the theorems. -/

/-- Toy tokenizer: one token per character, pad id 0. -/
def demoTok : Tokenizer :=
  { encode := fun s => List.replicate s.length 7
  , padId := 0
  , decode := fun ids skip clean => String.mk (List.replicate ids.length 'x') }

/-- Toy generation routine: echoes the rows of the first tensor it receives. -/
def demoGen : GenCall → List (List Nat) :=
  fun c => (c.tensors.headD defaultBT).data

/-- Toy T5-style conditional generation model. -/
def demoModelT5 : Model :=
  { isT5 := true, params := [1, 2], training := true, generate := demoGen }

/-- Toy Bart-style model (no token type ids). -/
def demoModelBart : Model :=
  { isT5 := false, params := [3], training := true, generate := demoGen }

/-- Toy hub serving the two toy models. -/
def demoHub : TransformersHub :=
  { autoTokenizer := fun _ => demoTok
  , autoModelWithLMHead := fun name =>
      if name = "t5-small" then demoModelT5 else demoModelBart }

/-- Toy translators on the cpu. -/
def demoTrT5 : TransformersTranslator :=
  TransformersTranslator.init false demoTok demoModelT5

/-- Toy Bart translator on the cpu. -/
def demoTrBart : TransformersTranslator :=
  TransformersTranslator.init false demoTok demoModelBart

/-- Toy three-element input list. -/
def demoText : PyText :=
  PyText.list ["aa", "b", "ccc"]

/-- Witness run: first `translate` call on a fresh façade. -/
def demoRun1 : TranslateOut :=
  EasyTranslator.init.translate demoHub false (PyText.str "hello") "t5-small"
    "translate English to German" 2 1 0 16 true []

/-- Witness run: second `translate` call with the same model name. -/
def demoRun2 : TranslateOut :=
  demoRun1.state.translate demoHub false (PyText.str "hello") "t5-small"
    "translate English to German" 2 1 0 16 true []

/-- Pipeline demanded by the spec, as its own definition.  Modelled from the
spec: "tokenize → batch → call pretrained model → decode" — batch-encode the
texts, split the encoded input ids into consecutive mini-batches, call the
model's generation routine on each batch's input ids with the given generation
parameters, and decode every generated output. -/
def pipelineSpec (tr : TransformersTranslator) (texts : List String) (m : Nat)
    (args : GenArgs) : List String :=
  ((chunkList m (tr.tokenizer.batchEncodePlus texts 512).input_ids).map
    (fun b =>
      (tr.model.generate
          { tensors := [{ data := b, device := tr.device }], args := args }).map
        (fun o => tr.tokenizer.decode o true false))).flatten


/-! Basic lemmas about mini-batch chunking. -/

theorem chunkList_nil {α : Type} (m : Nat) : chunkList m ([] : List α) = [] := by
  rw [chunkList]

theorem chunkList_cons {α : Type} (m : Nat) (x : α) (xs : List α) :
    chunkList m (x :: xs) = (x :: xs.take (m - 1)) :: chunkList m (xs.drop (m - 1)) := by
  rw [chunkList]

theorem chunkList_flatten {α : Type} (m : Nat) (xs : List α) :
    (chunkList m xs).flatten = xs := by
  induction xs using chunkList.induct m with
  | case1 => simp [chunkList_nil]
  | case2 x xs ih => simp [chunkList_cons, ih]

theorem chunkList_map {α β : Type} (m : Nat) (f : α → β) (xs : List α) :
    chunkList m (xs.map f) = (chunkList m xs).map (List.map f) := by
  induction xs using chunkList.induct m with
  | case1 => simp [chunkList_nil]
  | case2 x xs ih => simp [chunkList_cons, ← List.map_take, ← List.map_drop, ih]

theorem chunkList_ne_nil {α : Type} (m : Nat) (xs : List α) :
    ∀ c ∈ chunkList m xs, c ≠ [] := by
  induction xs using chunkList.induct m with
  | case1 => simp [chunkList_nil]
  | case2 x xs ih =>
    intro c hc
    rw [chunkList_cons] at hc
    rcases List.mem_cons.mp hc with h1 | h1
    · subst h1; simp
    · exact ih c h1

theorem chunkList_mem_len_le {α : Type} (m : Nat) (hm : 1 ≤ m) (xs : List α) :
    ∀ c ∈ chunkList m xs, c.length ≤ m := by
  induction xs using chunkList.induct m with
  | case1 => simp [chunkList_nil]
  | case2 x xs ih =>
    intro c hc
    rw [chunkList_cons] at hc
    rcases List.mem_cons.mp hc with h1 | h1
    · subst h1; simp; omega
    · exact ih c h1

theorem chunkList_mem_mem {α : Type} (m : Nat) (xs : List α) :
    ∀ c ∈ chunkList m xs, ∀ r ∈ c, r ∈ xs := by
  intro c hc r hr
  have h := chunkList_flatten m xs
  rw [← h]
  exact List.mem_flatten.mpr ⟨c, hc, hr⟩

theorem chunkList_length {α : Type} (m : Nat) (hm : 1 ≤ m) (xs : List α) :
    (chunkList m xs).length = (xs.length + m - 1) / m := by
  induction xs using chunkList.induct m with
  | case1 =>
    simp [chunkList_nil]
    rw [Nat.div_eq_of_lt (by omega)]
  | case2 x xs ih =>
    rw [chunkList_cons]
    simp only [List.length_cons, List.length_drop] at *
    rw [ih]
    have hr : xs.length + 1 + m - 1 = xs.length + m := by omega
    rw [hr, Nat.add_div_right _ (by omega)]
    have key : (xs.length - (m - 1) + m - 1) / m = xs.length / m := by
      rcases le_or_lt (m - 1) xs.length with h | h
      · have h1 : xs.length - (m - 1) + m - 1 = xs.length := by omega
        rw [h1]
      · have h1 : xs.length - (m - 1) + m - 1 = m - 1 := by omega
        rw [h1, Nat.div_eq_of_lt (by omega), Nat.div_eq_of_lt (by omega)]
    omega

theorem chunkList_dropLast_full {α : Type} (m : Nat) (hm : 1 ≤ m) (xs : List α) :
    ∀ c ∈ (chunkList m xs).dropLast, c.length = m := by
  induction xs using chunkList.induct m with
  | case1 => simp [chunkList_nil]
  | case2 x xs ih =>
    intro c hc
    rw [chunkList_cons] at hc
    rcases h : chunkList m (xs.drop (m - 1)) with _ | ⟨c2, rest⟩
    · rw [h] at hc; simp at hc
    · rw [h, List.dropLast_cons₂] at hc
      rcases List.mem_cons.mp hc with h1 | h1
      · subst h1
        have hne : xs.drop (m - 1) ≠ [] := by
          intro he; rw [he, chunkList_nil] at h; cases h
        have hlen : m - 1 ≤ xs.length := by
          by_contra hcon
          exact hne (List.drop_eq_nil_of_le (by omega))
        simp
        omega
      · rw [← h] at h1
        exact ih c h1

/-! Closed forms for the loop and the tokenized dataset. -/

theorem Model.eval_generate (m : Model) : m.eval.generate = m.generate := rfl

theorem Model.eval_params (m : Model) : m.eval.params = m.params := rfl

theorem Model.eval_isT5 (m : Model) : m.eval.isT5 = m.isT5 := rfl

theorem Model.eval_training (m : Model) : m.eval.training = false := rfl

theorem Model.eval_idem (m : Model) : m.eval.eval = m.eval := rfl

theorem zipWith_map_same {α β γ δ : Type} (f : β → γ → δ) (g : α → β) (h : α → γ)
    (l : List α) :
    List.zipWith f (l.map g) (l.map h) = l.map (fun x => f (g x) (h x)) := by
  induction l with
  | nil => rfl
  | cons x xs ih => simp [ih]

theorem tokenizeDataset_eq_map (tr : TransformersTranslator) (texts : List String) :
    tr.tokenizeDataset texts = texts.map (datasetRow tr.tokenizer tr.model.isT5) := by
  cases h : tr.model.isT5 <;>
    simp [TransformersTranslator.tokenizeDataset, Tokenizer.batchEncodePlus,
      tensorDataset2, tensorDataset3, h, zipWith_map_same, datasetRow,
      -List.reduceReplicate, -List.map_const, -List.map_const']

theorem datasetRow_length (tok : Tokenizer) (isT5 : Bool) (t : String) :
    (datasetRow tok isT5 t).length = if isT5 then 3 else 2 := by
  cases isT5 <;> simp [datasetRow]

theorem datasetRow_head (tok : Tokenizer) (isT5 : Bool) (t : String) :
    (datasetRow tok isT5 t).getD 0 [] = tok.padRow 512 (tok.encode t) := by
  cases isT5 <;> simp [datasetRow]

theorem padRow_length (tok : Tokenizer) (maxLen : Nat) (e : List Nat) :
    (tok.padRow maxLen e).length = maxLen := by
  simp [Tokenizer.padRow]
  omega

theorem maskRow_length (maxLen : Nat) (e : List Nat) :
    (maskRow maxLen e).length = maxLen := by
  simp [maskRow]
  omega

theorem mkStep_rows (tr : TransformersTranslator) (args : GenArgs) (model : Model)
    (rows : List (List (List Nat))) : (tr.mkStep args model rows).rows = rows := rfl

theorem mkStep_gradEnabled (tr : TransformersTranslator) (args : GenArgs)
    (model : Model) (rows : List (List (List Nat))) :
    (tr.mkStep args model rows).gradEnabled = false := rfl

theorem mkStep_modelTraining (tr : TransformersTranslator) (args : GenArgs)
    (model : Model) (rows : List (List (List Nat))) :
    (tr.mkStep args model rows).modelTraining = model.training := rfl

theorem mkStep_call_args (tr : TransformersTranslator) (args : GenArgs)
    (model : Model) (rows : List (List (List Nat))) :
    (tr.mkStep args model rows).call.args = args := rfl

theorem mkStep_call_tensors_lookup (tr : TransformersTranslator) (args : GenArgs)
    (model : Model) (rows : List (List (List Nat))) :
    (tr.mkStep args model rows).call.tensors =
      [lookupBT (tr.mkStep args model rows).inputs "input_ids"] := rfl

theorem collate_eq_two (rows : List (List (List Nat)))
    (hk : (rows.headD []).length = 2) :
    collate rows = [{ data := rows.map (fun r => r.getD 0 []), device := Device.cpu },
                    { data := rows.map (fun r => r.getD 1 []), device := Device.cpu }] := by
  unfold collate
  rw [hk]
  rfl

theorem collate_eq_three (rows : List (List (List Nat)))
    (hk : (rows.headD []).length = 3) :
    collate rows = [{ data := rows.map (fun r => r.getD 0 []), device := Device.cpu },
                    { data := rows.map (fun r => r.getD 1 []), device := Device.cpu },
                    { data := rows.map (fun r => r.getD 2 []), device := Device.cpu }] := by
  unfold collate
  rw [hk]
  rfl

theorem mkStep_call_two_or_three (tr : TransformersTranslator) (args : GenArgs)
    (model : Model) (rows : List (List (List Nat)))
    (hk : (rows.headD []).length = 2 ∨ (rows.headD []).length = 3) :
    (tr.mkStep args model rows).call =
      { tensors := [{ data := rows.map (fun r => r.getD 0 []), device := tr.device }]
      , args := args } := by
  rcases hk with hk | hk
  · simp [TransformersTranslator.mkStep, collate_eq_two rows hk, BTensor.to, lookupBT,
      List.lookup]
  · simp [TransformersTranslator.mkStep, collate_eq_three rows hk, BTensor.to, lookupBT,
      List.lookup]

theorem mkStep_batch_device (tr : TransformersTranslator) (args : GenArgs)
    (model : Model) (rows : List (List (List Nat))) :
    ∀ t ∈ (tr.mkStep args model rows).batch, t.device = tr.device := by
  intro t ht
  simp only [TransformersTranslator.mkStep] at ht
  rcases List.mem_map.mp ht with ⟨t2, _, h2⟩
  rw [← h2]
  rfl

theorem runBatches_eq (tr : TransformersTranslator) (args : GenArgs) :
    ∀ (bs : List (List (List (List Nat)))) (model : Model),
      model.eval = tr.model.eval →
      tr.runBatches args model bs =
        ((bs.map (fun rows =>
            (tr.model.eval.generate (tr.mkStep args tr.model.eval rows).call).map
              (fun o => tr.tokenizer.decode o true false))).flatten,
         bs.map (fun rows => tr.mkStep args tr.model.eval rows),
         if bs = [] then model else tr.model.eval) := by
  intro bs
  induction bs with
  | nil =>
    intro model h
    simp [TransformersTranslator.runBatches]
  | cons rows rest ih =>
    intro model h
    simp only [TransformersTranslator.runBatches]
    rw [h, ih tr.model.eval (Model.eval_idem tr.model)]
    simp

/-- Closed form of `predictT`: the trace is one step per mini-batch of the
tokenized prepared texts, the translations are the concatenated decoded
generations, and the returned state differs from the initial one only in the
model's training mode (set to eval by the first loop iteration, if any). -/
theorem predictT_eq (tr : TransformersTranslator) (text : PyText) (t5pre : String)
    (mini_batch_size num_beams min_length max_length : Nat) (early_stopping : Bool)
    (kwargs : List (String × Int)) :
    tr.predictT text t5pre mini_batch_size num_beams min_length max_length
        early_stopping kwargs =
      { translations :=
          ((chunkList mini_batch_size
              (tr.tokenizeDataset (preparedTexts tr.model.isT5 t5pre text))).map
            (fun rows =>
              (tr.model.eval.generate
                  (tr.mkStep
                    { num_beams := num_beams, min_length := min_length
                    , max_length := max_length, early_stopping := early_stopping
                    , kwargs := kwargs } tr.model.eval rows).call).map
                (fun o => tr.tokenizer.decode o true false))).flatten
      , steps :=
          (chunkList mini_batch_size
              (tr.tokenizeDataset (preparedTexts tr.model.isT5 t5pre text))).map
            (fun rows =>
              tr.mkStep
                { num_beams := num_beams, min_length := min_length
                , max_length := max_length, early_stopping := early_stopping
                , kwargs := kwargs } tr.model.eval rows)
      , final :=
          { tr with model :=
              if (chunkList mini_batch_size
                  (tr.tokenizeDataset (preparedTexts tr.model.isT5 t5pre text))) = []
              then tr.model else tr.model.eval } } := by
  simp only [TransformersTranslator.predictT, preparedTexts]
  rw [runBatches_eq tr _ _ tr.model rfl]

theorem flatten_length_congr {β : Type} (B C : List (List β))
    (hlen : B.length = C.length)
    (h : ∀ j, j < B.length → (B.getD j []).length = (C.getD j []).length) :
    B.flatten.length = C.flatten.length := by
  induction B generalizing C with
  | nil =>
    cases C with
    | nil => rfl
    | cons c cs => simp at hlen
  | cons b bs ih =>
    cases C with
    | nil => simp at hlen
    | cons c cs =>
      simp only [List.flatten_cons, List.length_append]
      have h0 := h 0 (by simp)
      simp only [List.getD] at h0
      rw [ih cs (by simpa using hlen) (fun j hj => h (j + 1) (by simpa using hj))]
      simp at h0
      omega

theorem blocks_getElem {β : Type} (m : Nat) (hm : 1 ≤ m) :
    ∀ (B : List (List β)) (i : Nat),
      (∀ j, j + 1 < B.length → (B.getD j []).length = m) →
      (∀ b ∈ B, b.length ≤ m) →
      i < B.flatten.length →
      B.flatten[i]? = (B.getD (i / m) [])[i % m]? := by
  intro B
  induction B with
  | nil => intro i _ _ hi; simp at hi
  | cons b rest ih =>
    intro i hfull hle hi
    simp only [List.flatten_cons]
    rcases Nat.lt_or_ge i b.length with h1 | h1
    · have him : i < m := lt_of_lt_of_le h1 (hle b (by simp))
      rw [List.getElem?_append_left h1, Nat.div_eq_of_lt him, Nat.mod_eq_of_lt him]
      rfl
    · rcases rest with _ | ⟨b2, rest2⟩
      · simp only [List.flatten_cons, List.flatten_nil, List.append_nil] at hi
        omega
      · have hbm : b.length = m := hfull 0 (by simp)
        rw [List.getElem?_append_right h1]
        have hi2 : i - b.length < (b2 :: rest2).flatten.length := by
          simp only [List.flatten_cons, List.length_append] at hi ⊢
          omega
        rw [ih (i - b.length)
          (fun j hj => hfull (j + 1) (by simp; simp at hj; omega))
          (fun d hd => hle d (by simp [hd]))
          hi2]
        have hdiv : i / m = (i - b.length) / m + 1 := by
          have h2 := Nat.add_div_right (i - b.length) (show 0 < m by omega)
          rw [show i - b.length + m = i by omega] at h2
          omega
        have hmod : i % m = (i - b.length) % m := by
          have h2 := Nat.add_mod_right (i - b.length) m
          rw [show i - b.length + m = i by omega] at h2
          omega
        rw [hdiv, hmod]
        rfl

theorem div_lt_ceil (i n m : Nat) (hm : 1 ≤ m) (hi : i < n) :
    i / m < (n + m - 1) / m := by
  have h1 : i / m ≤ (n - 1) / m := Nat.div_le_div_right (by omega)
  have h2 : (n + m - 1) / m = (n - 1) / m + 1 := by
    rw [show n + m - 1 = (n - 1) + m by omega, Nat.add_div_right _ (by omega)]
  omega

/-! Shape of the dataset rows drawn by the loader and of the inputs dictionary. -/

theorem mem_chunk_dataset_shape (tr : TransformersTranslator) (texts : List String)
    (m : Nat) (rows : List (List (List Nat)))
    (hrows : rows ∈ chunkList m (tr.tokenizeDataset texts)) :
    (rows.headD []).length = (if tr.model.isT5 then 3 else 2) ∧ rows ≠ [] := by
  have hne := chunkList_ne_nil m _ rows hrows
  refine ⟨?_, hne⟩
  rcases hn : rows with _ | ⟨r0, rrest⟩
  · exact absurd hn hne
  · have hr0 : r0 ∈ tr.tokenizeDataset texts := by
      apply chunkList_mem_mem m _ rows hrows
      rw [hn]
      simp
    rw [tokenizeDataset_eq_map] at hr0
    rcases List.mem_map.mp hr0 with ⟨t, _, ht⟩
    simpa [← ht] using datasetRow_length tr.tokenizer tr.model.isT5 t

theorem chunk_call (tr : TransformersTranslator) (args : GenArgs) (model : Model)
    (m : Nat) (texts : List String) (rows : List (List (List Nat)))
    (hrows : rows ∈ chunkList m (tr.tokenizeDataset texts)) :
    (tr.mkStep args model rows).call =
      { tensors := [{ data := rows.map (fun r => r.getD 0 []), device := tr.device }]
      , args := args } := by
  have h := (mem_chunk_dataset_shape tr texts m rows hrows).1
  apply mkStep_call_two_or_three
  cases hI : tr.model.isT5
  · rw [hI] at h
    left
    simpa using h
  · rw [hI] at h
    right
    simpa using h

theorem mkStep_batch_length (tr : TransformersTranslator) (args : GenArgs)
    (model : Model) (rows : List (List (List Nat))) :
    (tr.mkStep args model rows).batch.length = (rows.headD []).length := by
  simp [TransformersTranslator.mkStep, collate]

theorem mkStep_am_isSome (tr : TransformersTranslator) (args : GenArgs)
    (model : Model) (rows : List (List (List Nat))) :
    ((tr.mkStep args model rows).inputs.lookup "attention_masks").isSome = true := by
  simp only [TransformersTranslator.mkStep]
  split <;> rfl

theorem mkStep_tti_two (tr : TransformersTranslator) (args : GenArgs)
    (model : Model) (rows : List (List (List Nat)))
    (hk : (rows.headD []).length = 2) :
    ((tr.mkStep args model rows).inputs.lookup "token_type_ids").isSome = false := by
  simp only [TransformersTranslator.mkStep, collate_eq_two rows hk]
  rfl

theorem mkStep_tti_three (tr : TransformersTranslator) (args : GenArgs)
    (model : Model) (rows : List (List (List Nat)))
    (hk : (rows.headD []).length = 3) :
    ((tr.mkStep args model rows).inputs.lookup "token_type_ids").isSome = true := by
  simp only [TransformersTranslator.mkStep, collate_eq_three rows hk]
  rfl

/-! Claim theorems. -/

/-- C6: for every model name, `load` constructs the tokenizer and the model by
applying `AutoTokenizer.from_pretrained` and `AutoModelWithLMHead.from_pretrained`
to that same single name, and the returned translator stores exactly those two
objects. -/
theorem load_uses_single_name (hub : TransformersHub) (cuda_available : Bool)
    (model_name_or_path : String) :
    (TransformersTranslator.load hub cuda_available model_name_or_path).tokenizer =
        hub.autoTokenizer model_name_or_path ∧
      (TransformersTranslator.load hub cuda_available model_name_or_path).model =
        hub.autoModelWithLMHead model_name_or_path :=
  ⟨rfl, rfl⟩

/-- C5: after construction the model sits on cuda when available and on cpu
otherwise, that device equals the translator's device, and in every iteration
of `predict`'s batch loop every tensor of the batch has been moved to that same
device before `generate` is invoked. -/
theorem model_and_batches_same_device (cuda_available : Bool) (tok : Tokenizer)
    (model : Model) (text : PyText) (t5pre : String)
    (mini_batch_size num_beams min_length max_length : Nat) (early_stopping : Bool)
    (kwargs : List (String × Int)) :
    (TransformersTranslator.init cuda_available tok model).modelDevice =
        (if cuda_available then Device.cuda else Device.cpu) ∧
    (TransformersTranslator.init cuda_available tok model).modelDevice =
        (TransformersTranslator.init cuda_available tok model).device ∧
    ((TransformersTranslator.init cuda_available tok model).predictT text t5pre
          mini_batch_size num_beams min_length max_length early_stopping
          kwargs).steps.map (fun s => s.batch.map (fun t => t.device)) =
      ((TransformersTranslator.init cuda_available tok model).predictT text t5pre
          mini_batch_size num_beams min_length max_length early_stopping
          kwargs).steps.map
        (fun s => s.batch.map
          (fun _ => (TransformersTranslator.init cuda_available tok model).modelDevice)) := by
  refine ⟨rfl, rfl, ?_⟩
  rw [predictT_eq]
  simp only [List.map_map, Function.comp]
  apply List.map_congr_left
  intro rows hrows
  apply List.map_congr_left
  intro t ht
  exact mkStep_batch_device _ _ _ _ t ht

/-- C7: `predict` trains nothing: every loop iteration runs with gradients
disabled and the model in eval mode, and the state it returns has the same
tokenizer, model parameters, generation function, model kind, and devices as
before the call. -/
theorem predict_is_frame (tr : TransformersTranslator) (text : PyText)
    (t5pre : String) (mini_batch_size num_beams min_length max_length : Nat)
    (early_stopping : Bool) (kwargs : List (String × Int)) :
    ((tr.predictT text t5pre mini_batch_size num_beams min_length max_length
        early_stopping kwargs).final.tokenizer = tr.tokenizer) ∧
    ((tr.predictT text t5pre mini_batch_size num_beams min_length max_length
        early_stopping kwargs).final.model.params = tr.model.params) ∧
    ((tr.predictT text t5pre mini_batch_size num_beams min_length max_length
        early_stopping kwargs).final.model.generate = tr.model.generate) ∧
    ((tr.predictT text t5pre mini_batch_size num_beams min_length max_length
        early_stopping kwargs).final.model.isT5 = tr.model.isT5) ∧
    ((tr.predictT text t5pre mini_batch_size num_beams min_length max_length
        early_stopping kwargs).final.device = tr.device) ∧
    ((tr.predictT text t5pre mini_batch_size num_beams min_length max_length
        early_stopping kwargs).final.modelDevice = tr.modelDevice) ∧
    ((tr.predictT text t5pre mini_batch_size num_beams min_length max_length
        early_stopping kwargs).steps.map (fun s => s.gradEnabled) =
      List.replicate (tr.predictT text t5pre mini_batch_size num_beams min_length
        max_length early_stopping kwargs).steps.length false) ∧
    ((tr.predictT text t5pre mini_batch_size num_beams min_length max_length
        early_stopping kwargs).steps.map (fun s => s.modelTraining) =
      List.replicate (tr.predictT text t5pre mini_batch_size num_beams min_length
        max_length early_stopping kwargs).steps.length false) := by
  rw [predictT_eq]
  refine ⟨rfl, ?_, ?_, ?_, rfl, rfl, ?_, ?_⟩
  · dsimp only
    split <;> rfl
  · dsimp only
    split <;> rfl
  · dsimp only
    split <;> rfl
  · simp only [List.map_map, List.length_map]
    exact List.map_const' _ false
  · simp only [List.map_map, List.length_map]
    exact List.map_const' _ false

/-- C1: a fresh `EasyTranslator` holds no translators; a `translate` call whose
model name is absent from the dictionary loads a wrapper via
`TransformersTranslator.load` and stores it under that name; a call whose name
is present reuses the stored wrapper, calls `load` not at all, and leaves the
dictionary unchanged. -/
theorem easyTranslator_one_wrapper_per_name (hub : TransformersHub)
    (cuda_available : Bool) (text : PyText) (name t5pre : String)
    (mini_batch_size num_beams min_length max_length : Nat) (early_stopping : Bool)
    (kwargs : List (String × Int)) (et : EasyTranslator) :
    EasyTranslator.init.translators = [] ∧
    (et.translators.lookup name = none →
      (et.translate hub cuda_available text name t5pre mini_batch_size num_beams
          min_length max_length early_stopping kwargs).loaded = true ∧
      (et.translate hub cuda_available text name t5pre mini_batch_size num_beams
          min_length max_length early_stopping kwargs).used =
        TransformersTranslator.load hub cuda_available name ∧
      ((et.translate hub cuda_available text name t5pre mini_batch_size num_beams
          min_length max_length early_stopping kwargs).state.translators.lookup name) =
        some (TransformersTranslator.load hub cuda_available name)) ∧
    (∀ tr2, et.translators.lookup name = some tr2 →
      (et.translate hub cuda_available text name t5pre mini_batch_size num_beams
          min_length max_length early_stopping kwargs).loaded = false ∧
      (et.translate hub cuda_available text name t5pre mini_batch_size num_beams
          min_length max_length early_stopping kwargs).used = tr2 ∧
      (et.translate hub cuda_available text name t5pre mini_batch_size num_beams
          min_length max_length early_stopping kwargs).state = et) := by
  refine ⟨rfl, ?_, ?_⟩
  · intro h
    simp [EasyTranslator.translate, h, List.lookup]
  · intro tr2 h
    simp [EasyTranslator.translate, h]

/-- Witness for C1: on a fresh façade the first call with a name loads and
stores the wrapper, and the next call with the same name reuses it. -/
theorem easyTranslator_one_wrapper_per_name_witness :
    EasyTranslator.init.translators.lookup "t5-small" = none ∧
    demoRun1.loaded = true ∧
    demoRun1.used = TransformersTranslator.load demoHub false "t5-small" ∧
    demoRun1.state.translators.lookup "t5-small" =
      some (TransformersTranslator.load demoHub false "t5-small") ∧
    demoRun2.loaded = false ∧
    demoRun2.used = TransformersTranslator.load demoHub false "t5-small" ∧
    demoRun2.state = demoRun1.state := by
  have h1 : EasyTranslator.init.translators.lookup "t5-small" = none := rfl
  have H1 := easyTranslator_one_wrapper_per_name demoHub false (PyText.str "hello")
    "t5-small" "translate English to German" 2 1 0 16 true [] EasyTranslator.init
  have p1 := H1.2.1 h1
  have H2 := easyTranslator_one_wrapper_per_name demoHub false (PyText.str "hello")
    "t5-small" "translate English to German" 2 1 0 16 true [] demoRun1.state
  have p2 := H2.2.2 (TransformersTranslator.load demoHub false "t5-small") p1.2.2
  exact ⟨h1, p1.1, p1.2.1, p1.2.2, p2.1, p2.2.1, p2.2.2⟩

/-- C9: in every batch iteration, `generate` receives exactly one tensor, the
`inputs` dictionary entry for `input_ids`; the attention mask entry is present
in the dictionary in every iteration, and the token type ids entry is present
exactly for T5 models, yet neither is ever passed to `generate`. -/
theorem generate_gets_only_input_ids (tr : TransformersTranslator) (text : PyText)
    (t5pre : String) (mini_batch_size num_beams min_length max_length : Nat)
    (early_stopping : Bool) (kwargs : List (String × Int)) :
    ((tr.predictT text t5pre mini_batch_size num_beams min_length max_length
        early_stopping kwargs).steps.map (fun s => s.call.tensors) =
      (tr.predictT text t5pre mini_batch_size num_beams min_length max_length
        early_stopping kwargs).steps.map (fun s => [lookupBT s.inputs "input_ids"])) ∧
    ((tr.predictT text t5pre mini_batch_size num_beams min_length max_length
        early_stopping kwargs).steps.map (fun s => s.call.tensors.length) =
      List.replicate (tr.predictT text t5pre mini_batch_size num_beams min_length
        max_length early_stopping kwargs).steps.length 1) ∧
    ((tr.predictT text t5pre mini_batch_size num_beams min_length max_length
        early_stopping kwargs).steps.map
          (fun s => (s.inputs.lookup "attention_masks").isSome) =
      List.replicate (tr.predictT text t5pre mini_batch_size num_beams min_length
        max_length early_stopping kwargs).steps.length true) ∧
    ((tr.predictT text t5pre mini_batch_size num_beams min_length max_length
        early_stopping kwargs).steps.map
          (fun s => (s.inputs.lookup "token_type_ids").isSome) =
      List.replicate (tr.predictT text t5pre mini_batch_size num_beams min_length
        max_length early_stopping kwargs).steps.length tr.model.isT5) := by
  rw [predictT_eq]
  refine ⟨?_, ?_, ?_, ?_⟩
  · simp only [List.map_map]
    apply List.map_congr_left
    intro rows hrows
    exact mkStep_call_tensors_lookup _ _ _ _
  · simp only [List.map_map, List.length_map]
    exact List.map_const' _ 1
  · simp only [List.map_map, List.length_map]
    calc (chunkList mini_batch_size
            (tr.tokenizeDataset (preparedTexts tr.model.isT5 t5pre text))).map _
        = (chunkList mini_batch_size
            (tr.tokenizeDataset (preparedTexts tr.model.isT5 t5pre text))).map
            (fun _ => true) :=
          List.map_congr_left (fun rows _ => mkStep_am_isSome _ _ _ rows)
      _ = _ := List.map_const' _ true
  · simp only [List.map_map, List.length_map]
    calc (chunkList mini_batch_size
            (tr.tokenizeDataset (preparedTexts tr.model.isT5 t5pre text))).map _
        = (chunkList mini_batch_size
            (tr.tokenizeDataset (preparedTexts tr.model.isT5 t5pre text))).map
            (fun _ => tr.model.isT5) := by
          apply List.map_congr_left
          intro rows hrows
          have hsh := (mem_chunk_dataset_shape tr _ _ rows hrows).1
          cases hI : tr.model.isT5
          · rw [hI] at hsh
            simp only [Bool.false_eq_true, if_false] at hsh
            exact mkStep_tti_two _ _ _ rows hsh
          · rw [hI] at hsh
            simp only [if_true] at hsh
            exact mkStep_tti_three _ _ _ rows hsh
      _ = _ := List.map_const' _ tr.model.isT5

/-- C10: `_tokenize` always encodes with maximum length 512 and pads to it:
the dataset has one row per text, every tensor row has exactly 512 positions,
the `input_ids` row for a text is its encoding truncated to 512 ids and padded
with the pad token, and the mini-batches `predict` draws do not depend on the
`max_length` argument, which is only a generation parameter. -/
theorem tokenize_fixed_512 (tr : TransformersTranslator) (texts : List String)
    (text : PyText) (t5pre : String) (mini_batch_size num_beams min_length : Nat)
    (early_stopping : Bool) (kwargs : List (String × Int)) (maxLen1 maxLen2 : Nat) :
    ((tr.tokenizeDataset texts).length = texts.length) ∧
    ((tr.tokenizeDataset texts).all
        (fun row => row.all (fun v => v.length == 512)) = true) ∧
    ((tr.tokenizeDataset texts).map (fun r => r.getD 0 []) =
      texts.map (fun t =>
        (tr.tokenizer.encode t).take 512 ++
          List.replicate (512 - (tr.tokenizer.encode t).length) tr.tokenizer.padId)) ∧
    ((tr.predictT text t5pre mini_batch_size num_beams min_length maxLen1
        early_stopping kwargs).steps.map (fun s => s.rows) =
      (tr.predictT text t5pre mini_batch_size num_beams min_length maxLen2
        early_stopping kwargs).steps.map (fun s => s.rows)) := by
  refine ⟨?_, ?_, ?_, ?_⟩
  · rw [tokenizeDataset_eq_map, List.length_map]
  · rw [List.all_eq_true]
    intro row hrow
    rw [tokenizeDataset_eq_map] at hrow
    rcases List.mem_map.mp hrow with ⟨t, _, ht⟩
    rw [List.all_eq_true]
    intro v hv
    rw [← ht] at hv
    rw [beq_iff_eq]
    cases hI : tr.model.isT5 <;> rw [hI] at hv <;>
      simp [datasetRow, -List.reduceReplicate] at hv
    · rcases hv with hv | hv
      · rw [hv, padRow_length]
      · rw [hv, maskRow_length]
    · rcases hv with hv | hv | hv
      · rw [hv, padRow_length]
      · rw [hv, maskRow_length]
      · rw [hv]
        simp
  · rw [tokenizeDataset_eq_map, List.map_map]
    apply List.map_congr_left
    intro t ht
    simp only [Function.comp]
    rw [datasetRow_head]
    rfl
  · rw [predictT_eq, predictT_eq]
    simp only [List.map_map]
    rfl

/-- C8: for a T5 model every input text is replaced by the task text, a colon
and a space, then the text, before tokenization; for a non-T5 model the input
texts are tokenized unchanged and the whole result of `predict` is unchanged
under any change of the `t5_prefix` argument. -/
theorem t5_task_text_prepending (tr : TransformersTranslator) (text : PyText)
    (p1 p2 : String) (mini_batch_size num_beams min_length max_length : Nat)
    (early_stopping : Bool) (kwargs : List (String × Int)) :
    (tr.model.isT5 = true →
      (tr.predictT text p1 mini_batch_size num_beams min_length max_length
          early_stopping kwargs).steps.map (fun s => s.rows) =
        chunkList mini_batch_size
          (tr.tokenizeDataset (text.toList.map (fun t => p1 ++ ": " ++ t)))) ∧
    (tr.model.isT5 = false →
      ((tr.predictT text p1 mini_batch_size num_beams min_length max_length
          early_stopping kwargs).steps.map (fun s => s.rows) =
        chunkList mini_batch_size (tr.tokenizeDataset text.toList)) ∧
      tr.predictT text p1 mini_batch_size num_beams min_length max_length
          early_stopping kwargs =
        tr.predictT text p2 mini_batch_size num_beams min_length max_length
          early_stopping kwargs) := by
  constructor
  · intro hI
    rw [predictT_eq]
    simp only [List.map_map, preparedTexts, hI, if_true]
    exact (List.map_congr_left (fun c _ => rfl)).trans (List.map_id _)
  · intro hI
    constructor
    · rw [predictT_eq]
      simp only [List.map_map, preparedTexts, hI, Bool.false_eq_true, if_false]
      exact (List.map_congr_left (fun c _ => rfl)).trans (List.map_id _)
    · rw [predictT_eq, predictT_eq]
      simp only [preparedTexts, hI, Bool.false_eq_true, if_false]

/-- Witness for C8: the T5 branch on a toy T5 translator, and both non-T5
conjuncts on a toy Bart translator with two different task texts. -/
theorem t5_task_text_prepending_witness :
    ((demoTrT5.predictT demoText "pre" 2 1 0 16 true []).steps.map (fun s => s.rows) =
      chunkList 2
        (demoTrT5.tokenizeDataset (demoText.toList.map (fun t => "pre" ++ ": " ++ t)))) ∧
    ((demoTrBart.predictT demoText "pre" 2 1 0 16 true []).steps.map (fun s => s.rows) =
      chunkList 2 (demoTrBart.tokenizeDataset demoText.toList)) ∧
    (demoTrBart.predictT demoText "pre" 2 1 0 16 true [] =
      demoTrBart.predictT demoText "other" 2 1 0 16 true []) :=
  ⟨(t5_task_text_prepending demoTrT5 demoText "pre" "other" 2 1 0 16 true []).1 rfl,
   ((t5_task_text_prepending demoTrBart demoText "pre" "other" 2 1 0 16 true []).2 rfl).1,
   ((t5_task_text_prepending demoTrBart demoText "pre" "other" 2 1 0 16 true []).2 rfl).2⟩

theorem mkStep_call_mapped (tr : TransformersTranslator) (args : GenArgs)
    (model : Model) (c : List String) (hne : c ≠ []) :
    (tr.mkStep args model (c.map (datasetRow tr.tokenizer tr.model.isT5))).call =
      { tensors := [{ data := c.map (fun t => tr.tokenizer.padRow 512 (tr.tokenizer.encode t))
                    , device := tr.device }]
      , args := args } := by
  have h1 : (tr.mkStep args model (c.map (datasetRow tr.tokenizer tr.model.isT5))).call =
      { tensors := [{ data := (c.map (datasetRow tr.tokenizer tr.model.isT5)).map
                        (fun r => r.getD 0 [])
                    , device := tr.device }]
      , args := args } := by
    apply mkStep_call_two_or_three
    rcases c with _ | ⟨t0, crest⟩
    · exact absurd rfl hne
    · simp only [List.map_cons, List.headD_cons]
      rw [datasetRow_length]
      cases tr.model.isT5 <;> simp
  rw [h1, List.map_map]
  have hdata : c.map ((fun r => r.getD 0 []) ∘ datasetRow tr.tokenizer tr.model.isT5) =
      c.map (fun t => tr.tokenizer.padRow 512 (tr.tokenizer.encode t)) :=
    List.map_congr_left (fun t _ => datasetRow_head tr.tokenizer tr.model.isT5 t)
  rw [hdata]

/-- C4: `predict` is exactly the pipeline tokenize, then batch, then call the
model's `generate` with the batch input ids and the given `num_beams`,
`min_length`, `max_length`, `early_stopping` and extra keyword arguments, then
decode each output; every `generate` call carries exactly those parameters and
the module computes no translation itself. -/
theorem predict_is_pipeline (tr : TransformersTranslator) (text : PyText)
    (t5pre : String) (mini_batch_size num_beams min_length max_length : Nat)
    (early_stopping : Bool) (kwargs : List (String × Int)) :
    ((tr.predictT text t5pre mini_batch_size num_beams min_length max_length
        early_stopping kwargs).translations =
      pipelineSpec tr (preparedTexts tr.model.isT5 t5pre text) mini_batch_size
        { num_beams := num_beams, min_length := min_length, max_length := max_length
        , early_stopping := early_stopping, kwargs := kwargs }) ∧
    ((tr.predictT text t5pre mini_batch_size num_beams min_length max_length
        early_stopping kwargs).steps.map (fun s => s.call.args) =
      List.replicate (tr.predictT text t5pre mini_batch_size num_beams min_length
          max_length early_stopping kwargs).steps.length
        { num_beams := num_beams, min_length := min_length, max_length := max_length
        , early_stopping := early_stopping, kwargs := kwargs }) := by
  refine ⟨?_, ?_⟩
  · rw [predictT_eq]
    dsimp only
    unfold pipelineSpec
    rw [tokenizeDataset_eq_map, chunkList_map]
    rw [show (tr.tokenizer.batchEncodePlus
          (preparedTexts tr.model.isT5 t5pre text) 512).input_ids =
        (preparedTexts tr.model.isT5 t5pre text).map
          (fun t => tr.tokenizer.padRow 512 (tr.tokenizer.encode t)) from rfl,
      chunkList_map]
    rw [List.map_map, List.map_map]
    apply congrArg List.flatten
    apply List.map_congr_left
    intro c hc
    simp only [Function.comp]
    rw [mkStep_call_mapped tr _ tr.model.eval c (chunkList_ne_nil _ _ c hc)]
    rfl
  · rw [predictT_eq]
    simp only [List.map_map, List.length_map]
    exact List.map_const' _ _

/-- C3: with `n` tokenized inputs and mini-batch size `m ≥ 1`, the loop draws
`⌈n / m⌉` consecutive mini-batches, all of size `m` except possibly a smaller
final one, in input order, and their concatenation is the whole dataset, so
every input lands in exactly one batch. -/
theorem predict_partitions_batches (tr : TransformersTranslator) (text : PyText)
    (t5pre : String) (mini_batch_size num_beams min_length max_length : Nat)
    (early_stopping : Bool) (kwargs : List (String × Int))
    (hm : 1 ≤ mini_batch_size) :
    ((tr.predictT text t5pre mini_batch_size num_beams min_length max_length
        early_stopping kwargs).steps.map (fun s => s.rows) =
      chunkList mini_batch_size
        (tr.tokenizeDataset (preparedTexts tr.model.isT5 t5pre text))) ∧
    ((tr.predictT text t5pre mini_batch_size num_beams min_length max_length
        early_stopping kwargs).steps.length =
      ((tr.tokenizeDataset (preparedTexts tr.model.isT5 t5pre text)).length +
          mini_batch_size - 1) / mini_batch_size) ∧
    (((tr.predictT text t5pre mini_batch_size num_beams min_length max_length
        early_stopping kwargs).steps.map (fun s => s.rows)).dropLast.all
      (fun c => c.length == mini_batch_size) = true) ∧
    (((tr.predictT text t5pre mini_batch_size num_beams min_length max_length
        early_stopping kwargs).steps.map (fun s => s.rows)).all
      (fun c => decide (0 < c.length ∧ c.length ≤ mini_batch_size)) = true) ∧
    (((tr.predictT text t5pre mini_batch_size num_beams min_length max_length
        early_stopping kwargs).steps.map (fun s => s.rows)).flatten =
      tr.tokenizeDataset (preparedTexts tr.model.isT5 t5pre text)) := by
  have hsteps : (tr.predictT text t5pre mini_batch_size num_beams min_length
      max_length early_stopping kwargs).steps.map (fun s => s.rows) =
      chunkList mini_batch_size
        (tr.tokenizeDataset (preparedTexts tr.model.isT5 t5pre text)) := by
    rw [predictT_eq]
    simp only [List.map_map]
    exact (List.map_congr_left (fun c _ => rfl)).trans (List.map_id _)
  refine ⟨hsteps, ?_, ?_, ?_, ?_⟩
  · rw [show (tr.predictT text t5pre mini_batch_size num_beams min_length max_length
        early_stopping kwargs).steps.length =
      ((tr.predictT text t5pre mini_batch_size num_beams min_length max_length
        early_stopping kwargs).steps.map (fun s => s.rows)).length
      from (List.length_map _ _).symm]
    rw [hsteps, chunkList_length mini_batch_size hm]
  · rw [hsteps, List.all_eq_true]
    intro c hc
    rw [beq_iff_eq]
    exact chunkList_dropLast_full mini_batch_size hm _ c hc
  · rw [hsteps, List.all_eq_true]
    intro c hc
    rw [decide_eq_true_eq]
    exact ⟨List.length_pos.mpr (chunkList_ne_nil mini_batch_size _ c hc),
      chunkList_mem_len_le mini_batch_size hm _ c hc⟩
  · rw [hsteps, chunkList_flatten]

/-- Witness for C3 on the toy translator with three inputs and batch size two. -/
theorem predict_partitions_batches_witness :
    1 ≤ 2 ∧
    (((demoTrT5.predictT demoText "p" 2 1 0 16 true []).steps.map (fun s => s.rows) =
      chunkList 2 (demoTrT5.tokenizeDataset
        (preparedTexts demoTrT5.model.isT5 "p" demoText))) ∧
    ((demoTrT5.predictT demoText "p" 2 1 0 16 true []).steps.length =
      ((demoTrT5.tokenizeDataset
        (preparedTexts demoTrT5.model.isT5 "p" demoText)).length + 2 - 1) / 2) ∧
    (((demoTrT5.predictT demoText "p" 2 1 0 16 true []).steps.map
        (fun s => s.rows)).dropLast.all (fun c => c.length == 2) = true) ∧
    (((demoTrT5.predictT demoText "p" 2 1 0 16 true []).steps.map
        (fun s => s.rows)).all
      (fun c => decide (0 < c.length ∧ c.length ≤ 2)) = true) ∧
    (((demoTrT5.predictT demoText "p" 2 1 0 16 true []).steps.map
        (fun s => s.rows)).flatten =
      demoTrT5.tokenizeDataset (preparedTexts demoTrT5.model.isT5 "p" demoText))) :=
  ⟨by decide,
   predict_partitions_batches demoTrT5 demoText "p" 2 1 0 16 true [] (by decide)⟩

theorem flatten_map_chunk_length {α β : Type} (m : Nat) (g : List α → List β)
    (xs : List α) (hg : ∀ c ∈ chunkList m xs, (g c).length = c.length) :
    ((chunkList m xs).map g).flatten.length = xs.length := by
  rw [List.length_flatten, List.map_map]
  have h1 : List.map (List.length ∘ g) (chunkList m xs) =
      List.map List.length (chunkList m xs) :=
    List.map_congr_left (fun c hc => hg c hc)
  rw [h1, ← List.length_flatten, chunkList_flatten]

theorem flatten_map_chunk_get {α β : Type} (m : Nat) (hm : 1 ≤ m)
    (g : List α → List β) (xs : List α)
    (hg : ∀ c ∈ chunkList m xs, (g c).length = c.length) (i : Nat)
    (hi : i < xs.length) :
    ((chunkList m xs).map g).flatten[i]? =
      (g ((chunkList m xs).getD (i / m) []))[i % m]? := by
  have hfull : ∀ j, j + 1 < ((chunkList m xs).map g).length →
      (((chunkList m xs).map g).getD j []).length = m := by
    intro j hj
    rw [List.length_map] at hj
    have hj2 : j < (chunkList m xs).length := by omega
    rw [List.getD_eq_getElem _ _ (by rw [List.length_map]; exact hj2),
      List.getElem_map]
    rw [hg _ (List.getElem_mem hj2)]
    have hj3 : j < (chunkList m xs).dropLast.length := by
      rw [List.length_dropLast]
      omega
    rw [← List.getElem_dropLast (chunkList m xs) j hj3]
    exact chunkList_dropLast_full m hm xs _ (List.getElem_mem hj3)
  have hle : ∀ b ∈ (chunkList m xs).map g, b.length ≤ m := by
    intro b hb
    rcases List.mem_map.mp hb with ⟨c, hc, hbc⟩
    rw [← hbc, hg c hc]
    exact chunkList_mem_len_le m hm xs c hc
  have hi2 : i < ((chunkList m xs).map g).flatten.length := by
    rw [flatten_map_chunk_length m g xs hg]
    exact hi
  have hidx : i / m < (chunkList m xs).length := by
    rw [chunkList_length m hm]
    exact div_lt_ceil i xs.length m hm hi
  rw [blocks_getElem m hm _ i hfull hle hi2]
  rw [List.getD_eq_getElem _ _ (by rw [List.length_map]; exact hidx),
    List.getElem_map, List.getD_eq_getElem _ _ hidx]

/-- C2: assuming the model's `generate` yields exactly one output sequence per
row of the batch it is given, `predict` returns one translation per input text
(one for a single string), and the i-th translation is the tokenizer's decoding
of the output that `generate` produced for the i-th input, in input order. -/
theorem predict_one_output_per_text (tr : TransformersTranslator) (text : PyText)
    (t5pre : String) (mini_batch_size num_beams min_length max_length : Nat)
    (early_stopping : Bool) (kwargs : List (String × Int))
    (hm : 1 ≤ mini_batch_size)
    (hg : ∀ c : GenCall, (tr.model.generate c).length =
      (c.tensors.headD defaultBT).data.length) :
    ((tr.predictT text t5pre mini_batch_size num_beams min_length max_length
        early_stopping kwargs).translations.length = text.toList.length) ∧
    (∀ i, i < text.toList.length →
      (tr.predictT text t5pre mini_batch_size num_beams min_length max_length
          early_stopping kwargs).translations[i]? =
        ((tr.model.generate
            (((tr.predictT text t5pre mini_batch_size num_beams min_length
                max_length early_stopping kwargs).steps.getD
              (i / mini_batch_size) dStep).call)).map
          (fun o => tr.tokenizer.decode o true false))[i % mini_batch_size]?) := by
  have hD : (tr.tokenizeDataset (preparedTexts tr.model.isT5 t5pre text)).length =
      text.toList.length := by
    rw [tokenizeDataset_eq_map, List.length_map]
    unfold preparedTexts
    split <;> simp
  have hg2 : ∀ c ∈ chunkList mini_batch_size
      (tr.tokenizeDataset (preparedTexts tr.model.isT5 t5pre text)),
      ((tr.model.eval.generate
          (tr.mkStep
            { num_beams := num_beams, min_length := min_length
            , max_length := max_length, early_stopping := early_stopping
            , kwargs := kwargs } tr.model.eval c).call).map
        (fun o => tr.tokenizer.decode o true false)).length = c.length := by
    intro c hc
    rw [List.length_map, Model.eval_generate,
      chunk_call tr _ tr.model.eval mini_batch_size _ c hc, hg]
    simp [defaultBT]
  constructor
  · rw [predictT_eq]
    dsimp only
    rw [flatten_map_chunk_length mini_batch_size _ _ hg2, hD]
  · intro i hi
    have hiD : i < (tr.tokenizeDataset
        (preparedTexts tr.model.isT5 t5pre text)).length := by
      rw [hD]
      exact hi
    rw [predictT_eq]
    dsimp only
    rw [flatten_map_chunk_get mini_batch_size hm _ _ hg2 i hiD]
    have hidx : i / mini_batch_size < (chunkList mini_batch_size
        (tr.tokenizeDataset (preparedTexts tr.model.isT5 t5pre text))).length := by
      rw [chunkList_length mini_batch_size hm]
      exact div_lt_ceil i _ mini_batch_size hm hiD
    rw [List.getD_eq_getElem _ _ hidx,
      List.getD_eq_getElem _ _ (by rw [List.length_map]; exact hidx),
      List.getElem_map]
    rfl

/-- Witness for C2 on the toy translator: three inputs, batch size two, and the
echoing toy `generate`, which returns one row per input row. -/
theorem predict_one_output_per_text_witness :
    1 ≤ 2 ∧ 2 < (demoText.toList.length) ∧
    ((demoTrT5.predictT demoText "p" 2 1 0 16 true []).translations.length =
      demoText.toList.length) ∧
    ((demoTrT5.predictT demoText "p" 2 1 0 16 true []).translations[2]? =
      ((demoTrT5.model.generate
          (((demoTrT5.predictT demoText "p" 2 1 0 16 true []).steps.getD
            (2 / 2) dStep).call)).map
        (fun o => demoTrT5.tokenizer.decode o true false))[2 % 2]?) :=
  ⟨by decide, by decide,
   (predict_one_output_per_text demoTrT5 demoText "p" 2 1 0 16 true []
     (by decide) (fun c => rfl)).1,
   (predict_one_output_per_text demoTrT5 demoText "p" 2 1 0 16 true []
     (by decide) (fun c => rfl)).2 2 (by decide)⟩
